import Mathlib

/-!
Shallow embedding of `src/packages/datetime/src/dateRangeInput.tsx` (the
`DateRangeInput` React component): its state record, its event handlers
(`handleGenericInputChange`, `handleGenericInputFocus`,
`handleGenericInputBlur`, `handleDateRangeChange`, `handleIconClick`,
`handleClosePopover`), its render-time display computation, and
`getCurrentDateRange`.

Modelling conventions:
* Calendar dates are day codes `Nat` (e.g. `20170122` stands for
  2017-01-22); moment's day-granularity comparisons become `Nat` order.
  Dates are positive, matching post-epoch JS `Date` timestamps.
* `MomentValue` is the observable state of the `moment.Moment | null`
  values stored in component state: the JS `null` literal, `moment(null)`
  (an invalid moment whose `parsingFlags().nullInput` is true), any other
  invalid moment, or a valid moment carrying a date.  All invalid moments
  are observationally equal with respect to every operation the component
  applies (`isValid`, `isBefore`, `isBetween`, `format`, parsing flags),
  so one constructor suffices.
* `Str` is the algebra of strings the component manipulates: the empty
  string, the canonical formatted text of a date under the configured
  format, the literal text moment produces when formatting an invalid
  moment (the same characters as the default `invalidDateMessage`, which
  is why they share a constructor-level representation below), the
  hardcoded render literal, and other opaque literals (configured
  messages, unparsable user input), identified by a numeric id.
* The `DateFormat` capability (moment parse/format under the configured
  pattern) is external to the repository; it is embedded as `parseStr` /
  `momentFormat` over `Str`, with the canonical text of date `d` parsing
  back to `d` and everything else parsing to an invalid moment.
-/

namespace DateRangeInputModel

/-- The string algebra observed by the component (see module comment). -/
inductive Str
  | emptyStr
  | dateStr (d : Nat)
  | invalidDateFmt
  | invalidEndDateText
  | litStr (id : Nat)
deriving DecidableEq, Repr

/-- Observable value of a `moment.Moment | null` slot in component state. -/
inductive MomentValue
  | nullVal
  | nullMoment
  | invalidMoment
  | validMoment (d : Nat)
deriving DecidableEq, Repr

/-- Modelled from the spec: the injected DateFormat capability's parse —
`moment(text, format)` for a non-null string.  The canonical formatted
text of a date parses back to that date; the empty string, the
"Invalid date" text and any other literal parse to an invalid moment
(with `nullInput` false). -/
def parseStr : Str → MomentValue
  | .dateStr d => .validMoment d
  | _ => .invalidMoment

/-- `moment(stringOrNull, format)`: a JS `null` string produces an invalid
moment with the `nullInput` parsing flag set. -/
def parseOpt : Option Str → MomentValue
  | none => .nullMoment
  | some s => parseStr s

/-- Modelled from the spec: the DateFormat capability's format —
`value.format(format)`.  Formatting an invalid moment yields moment's
literal "Invalid date" text.  (Never called on the JS `null` literal in
the source: every call site is guarded by an `isNull` check.) -/
def momentFormat : MomentValue → Str
  | .validMoment d => .dateStr d
  | _ => .invalidDateFmt

/-- `value.isValid()` (call sites never pass the JS `null` literal). -/
def momentIsValid : MomentValue → Bool
  | .validMoment _ => true
  | _ => false

/-- `a.isBefore(b)`: false whenever either side is not a valid moment
(call sites never use a JS `null` receiver). -/
def momentIsBefore : MomentValue → MomentValue → Bool
  | .validMoment a, .validMoment b => a < b
  | _, _ => false

/-- `a.isAfter(b)`, same conventions as `momentIsBefore`. -/
def momentIsAfter : MomentValue → MomentValue → Bool
  | .validMoment a, .validMoment b => b < a
  | _, _ => false

/-- The component's props that the core state machine reads.  `value` is
the controlled-mode prop (`undefined` becomes `none`); `defaultValue`
seeds uncontrolled mode.  Pure-rendering props (`disabled`, `shortcuts`,
`popoverPosition`, `selectAllOnFocus`, `allowUnboundedDateRange`) are
omitted: they never influence state transitions or the modelled display
strings. -/
structure Props where
  value : Option (Option Nat × Option Nat)
  defaultValue : Option (Option Nat × Option Nat)
  minDate : Nat
  maxDate : Nat
  invalidDateMessage : Str
  outOfRangeMessage : Str
  allowSingleDayRange : Bool
  openOnFocus : Bool
deriving DecidableEq, Repr

/-- `IDateRangeInputState`: the component state record. -/
structure State where
  isOpen : Bool
  isStartDateInputFocused : Bool
  startDateValue : MomentValue
  startDateValueString : Option Str
  isEndDateInputFocused : Bool
  endDateValue : MomentValue
  endDateValueString : Option Str
deriving DecidableEq, Repr

/-- Which field a generic handler addresses; the source selects the state
slots with string keys (`"startDateValue"` etc.), the embedding uses an
explicit tag. -/
inductive Boundary
  | startBoundary
  | endBoundary
deriving DecidableEq, Repr

def State.getValue : State → Boundary → MomentValue
  | s, .startBoundary => s.startDateValue
  | s, .endBoundary => s.endDateValue

def State.getValueString : State → Boundary → Option Str
  | s, .startBoundary => s.startDateValueString
  | s, .endBoundary => s.endDateValueString

def State.getFocused : State → Boundary → Bool
  | s, .startBoundary => s.isStartDateInputFocused
  | s, .endBoundary => s.isEndDateInputFocused

def State.setValue : State → Boundary → MomentValue → State
  | s, .startBoundary, v => { s with startDateValue := v }
  | s, .endBoundary, v => { s with endDateValue := v }

def State.setValueString : State → Boundary → Option Str → State
  | s, .startBoundary, v => { s with startDateValueString := v }
  | s, .endBoundary, v => { s with endDateValueString := v }

def State.setFocused : State → Boundary → Bool → State
  | s, .startBoundary, v => { s with isStartDateInputFocused := v }
  | s, .endBoundary, v => { s with isEndDateInputFocused := v }

/-- `isNull`: `value == null || value.parsingFlags().nullInput`. -/
def isNull : MomentValue → Bool
  | .nullVal => true
  | .nullMoment => true
  | _ => false

/-- `dateIsInRange`: `value != null && value.isBetween(minDate, maxDate,
"day", "[]")` (inclusive on both ends; false for invalid moments). -/
def dateIsInRange (p : Props) : MomentValue → Bool
  | .nullVal => false
  | .validMoment d => decide (p.minDate ≤ d) && decide (d ≤ p.maxDate)
  | _ => false

/-- `isDateValidAndInRange`: `value != null && value.isValid() &&
this.dateIsInRange(value)`. -/
def isDateValidAndInRange (p : Props) (v : MomentValue) : Bool :=
  !(v == .nullVal) && momentIsValid v && dateIsInRange p v

/-- `getDateStringForDisplay`. -/
def getDateStringForDisplay (p : Props) (v : MomentValue) : Str :=
  if isNull v then .emptyStr
  else if !momentIsValid v then p.invalidDateMessage
  else if !(dateIsInRange p v) then p.outOfRangeMessage
  else momentFormat v

/-- Notifications the component could emit.  The source declares the
`onChange` and `onError` props but every invocation site in
`handleGenericInputChange` (line 513), `handleGenericInputBlur`
(lines 491–497) is a `TODO` comment, and `handleDateRangeChange`
contains no call at all, so no handler below ever emits an effect. -/
inductive Effect
  | onChangeCall (r : Option Nat × Option Nat)
  | onErrorCall (r : Option Nat × Option Nat)
deriving DecidableEq, Repr

/-- `handleGenericInputChange(valueString, valueKey, valueStringKey)`. -/
def handleGenericInputChange (p : Props) (s : State) (b : Boundary)
    (valueString : Str) : State × List Effect :=
  let value := parseStr valueString
  if valueString == .emptyStr then
    (((s.setValue b .nullVal).setValueString b (some .emptyStr)), [])
  else if momentIsValid value && dateIsInRange p value then
    if p.value == none then
      (((s.setValue b value).setValueString b (some valueString)), [])
    else
      ((s.setValueString b (some valueString)), [])
    -- TODO in source (line 513): Utils.safeInvoke(this.props.onChange, ...)
  else
    (((s.setValue b value).setValueString b (some valueString)), [])

/-- `handleGenericInputFocus(e, value, valueStringKey, focusStateKey)`
(the `selectAllOnFocus` branch only touches the DOM selection). -/
def handleGenericInputFocus (p : Props) (s : State) (b : Boundary) :
    State × List Effect :=
  let value := s.getValue b
  let valueString := if isNull value then Str.emptyStr else momentFormat value
  let s1 := (s.setFocused b true).setValueString b (some valueString)
  if p.openOnFocus then ({ s1 with isOpen := true }, []) else (s1, [])

/-- `handleGenericInputBlur(valueString, valueKey, valueStringKey,
focusStatusKey)`.  The wrapper handlers pass the field's stored
`valueString` from state; it is non-null whenever the field is focused
(focus always sets it), and blur only follows focus, so the `getD`
default is never observed.  Note the source compares `valueString`
against the display string of `this.state.startDateValue` even when the
end field is being blurred. -/
def handleGenericInputBlur (p : Props) (s : State) (b : Boundary) :
    State × List Effect :=
  let valueString := (s.getValueString b).getD Str.emptyStr
  let value := parseStr valueString
  let isValueInvalid := !momentIsValid value
  let isValueOutOfRange := !(dateIsInRange p value)
  let isValueStringOutOfSync :=
    !(valueString == getDateStringForDisplay p s.startDateValue)
  let isInputEmpty := valueString == .emptyStr
  let didInputChangeToInvalidState :=
    !isInputEmpty && isValueStringOutOfSync &&
      (isValueInvalid || isValueOutOfRange)
  if isInputEmpty then
    ((((s.setFocused b false).setValue b .nullMoment).setValueString b none),
      [])
  else if didInputChangeToInvalidState then
    -- TODO branches in source (lines 491–497): onError / onChange calls
    -- are comments only, so no effect is emitted in either mode.
    if p.value == none then
      ((((s.setFocused b false).setValue b value).setValueString b none), [])
    else
      ((s.setFocused b false), [])
  else
    ((s.setFocused b false), [])

/-- Modelled from the spec: `fromDateToMoment` from the repository's
`common/dateUtils` module, which is not under `src/` — `moment(date)`,
with `moment(null)` for a null date. -/
def fromDateToMoment : Option Nat → MomentValue
  | none => .nullMoment
  | some d => .validMoment d

/-- `fromMomentToDate` (from `common/dateUtils`, not under `src/`):
`moment.toDate()`.  Only called on values that passed
`isDateValidAndInRange`, so the non-valid branches are unreachable. -/
def fromMomentToDate : MomentValue → Nat
  | .validMoment d => d
  | _ => 0

/-- `handleDateRangeChange(dateRange)`: the callback the `DateRangePicker`
invokes with a freshly clicked range.  It only calls `setState`; the
source contains no `onChange` invocation here. -/
def handleDateRangeChange (s : State) (dateRange : Option Nat × Option Nat) :
    State × List Effect :=
  let startDate := dateRange.1
  let endDate := dateRange.2
  let startDateValue := fromDateToMoment startDate
  let endDateValue := fromDateToMoment endDate
  let startDateValueString :=
    if startDate.isSome then momentFormat startDateValue else Str.emptyStr
  let endDateValueString :=
    if endDate.isSome then momentFormat endDateValue else Str.emptyStr
  let isStartDateInputFocused := startDate == none
  let isEndDateInputFocused := !(startDate == none) && endDate == none
  ({ s with
      startDateValue := startDateValue
      startDateValueString := some startDateValueString
      isStartDateInputFocused := isStartDateInputFocused
      endDateValue := endDateValue
      endDateValueString := some endDateValueString
      isEndDateInputFocused := isEndDateInputFocused }, [])

/-- JS `<` on `Date | null` operands as used by `getCurrentDateRange`:
`null` coerces to `0`, a `Date` to its (positive) timestamp. -/
def jsLtOpt (a b : Option Nat) : Bool :=
  a.getD 0 < b.getD 0

/-- `getCurrentDateRange`: the derived range handed to the
`DateRangePicker`. -/
def getCurrentDateRange (p : Props) (s : State) : Option Nat × Option Nat :=
  let startDate :=
    if isDateValidAndInRange p s.startDateValue then
      some (fromMomentToDate s.startDateValue)
    else none
  let endDate :=
    if isDateValidAndInRange p s.endDateValue then
      some (fromMomentToDate s.endDateValue)
    else none
  if jsLtOpt endDate startDate then (startDate, none) else (startDate, endDate)

/-- `handleIconClick`: toggles the popover open; the imperative
`input.blur()` calls it performs surface as separate blur events in a
trace. -/
def handleIconClick (s : State) : State × List Effect :=
  if s.isOpen then (s, []) else ({ s with isOpen := true }, [])

/-- `handleClosePopover`. -/
def handleClosePopover (s : State) : State × List Effect :=
  ({ s with isOpen := false }, [])

/-- Render-time local `startDateValue`: the focused field's value is
re-parsed from its edit text (`moment(this.state.startDateValueString,
format)`), otherwise the committed value is used. -/
def effectiveStart (s : State) : MomentValue :=
  if s.isStartDateInputFocused then parseOpt s.startDateValueString
  else s.startDateValue

/-- Render-time local `endDateValue`. -/
def effectiveEnd (s : State) : MomentValue :=
  if s.isEndDateInputFocused then parseOpt s.endDateValueString
  else s.endDateValue

/-- Render-time `startDateString`: the text shown in the start input.
(When focused the stored string is non-null; the `getD` default is never
observed.) -/
def displayedStart (p : Props) (s : State) : Str :=
  if s.isStartDateInputFocused then s.startDateValueString.getD .emptyStr
  else getDateStringForDisplay p s.startDateValue

/-- Render-time `endDateString`: before falling back to
`getDateStringForDisplay`, the source shows the hardcoded literal
"Invalid end date" whenever the effective end value `isBefore` the
effective start value. -/
def displayedEnd (p : Props) (s : State) : Str :=
  if s.isEndDateInputFocused then s.endDateValueString.getD .emptyStr
  else if momentIsBefore (effectiveEnd s) (effectiveStart s) then
    Str.invalidEndDateText
  else getDateStringForDisplay p s.endDateValue

/-- The displayed text of a given field. -/
def displayedOf (p : Props) (s : State) : Boundary → Str
  | .startBoundary => displayedStart p s
  | .endBoundary => displayedEnd p s

/-- The component constructor: initial state from `value` (controlled,
per-slot when non-null) falling back to `defaultValue`
(`getDefaultDateRange` / `fromDateRangeToMomentArray`). -/
def mkInitialState (p : Props) : State :=
  let defaultRange := p.defaultValue.getD (none, none)
  let defaultStartDateValue := fromDateToMoment defaultRange.1
  let defaultEndDateValue := fromDateToMoment defaultRange.2
  let startDateValue :=
    match p.value with
    | some (some v, _) => MomentValue.validMoment v
    | _ => defaultStartDateValue
  let endDateValue :=
    match p.value with
    | some (_, some v) => MomentValue.validMoment v
    | _ => defaultEndDateValue
  { isOpen := false
    isStartDateInputFocused := false
    startDateValue := startDateValue
    startDateValueString := none
    isEndDateInputFocused := false
    endDateValue := endDateValue
    endDateValueString := none }

/-- A user/DOM event delivered to the component's handlers. -/
inductive Event
  | changeText (b : Boundary) (t : Str)
  | focusField (b : Boundary)
  | blurField (b : Boundary)
  | pickerChange (r : Option Nat × Option Nat)
  | iconClick
  | closePopover
deriving DecidableEq, Repr

/-- One synchronous handler invocation. -/
def step (p : Props) (s : State) : Event → State × List Effect
  | .changeText b t => handleGenericInputChange p s b t
  | .focusField b => handleGenericInputFocus p s b
  | .blurField b => handleGenericInputBlur p s b
  | .pickerChange r => handleDateRangeChange s r
  | .iconClick => handleIconClick s
  | .closePopover => handleClosePopover s

/-- Run a sequence of events, accumulating emitted effects in order. -/
def run (p : Props) : State → List Event → State × List Effect
  | s, [] => (s, [])
  | s, e :: es =>
    let r := step p s e
    let r2 := run p r.1 es
    (r2.1, r.2 ++ r2.2)

/-- Modelled from the spec: the `DateRangePicker`'s click-driven range
update (spec §4.4); the picker component itself is not under `src/`.
Given the current range, the clicked day and `allowSingleDayRange`, it
returns the new range the picker reports to `handleDateRangeChange`.
For a third click strictly inside a fully-set range the spec re-anchors
the nearer boundary (ties resolved towards the start boundary). -/
def pickerClick : Option Nat × Option Nat → Nat → Bool →
    Option Nat × Option Nat
  | (none, none), d, _ => (some d, none)
  | (some a, none), d, allowEq =>
    if d < a then (some d, some a)
    else if a < d then (some a, some d)
    else if allowEq then (some a, some a)
    else (none, some a)
  | (none, some e), d, allowEq =>
    if d < e then (some d, some e)
    else if e < d then (some e, some d)
    else if allowEq then (some e, some e)
    else (some e, none)
  | (some a, some e), d, _ =>
    if d == a then (none, some e)
    else if d == e then (some a, none)
    else if d < a then (some d, some e)
    else if e < d then (some a, some d)
    else if d - a ≤ e - d then (some d, some e)
    else (some a, some d)

/-- Clicking day `d` in the calendar: the picker receives
`getCurrentDateRange`, computes the new range, and the component's
`handleDateRangeChange` processes it. -/
def clickDay (p : Props) (s : State) (d : Nat) : State × List Effect :=
  handleDateRangeChange s (pickerClick (getCurrentDateRange p s) d
    p.allowSingleDayRange)

/-- The `onChange` emissions within a list of effects. -/
def onChangeEffects (effs : List Effect) : List Effect :=
  effs.filter fun e => match e with
    | .onChangeCall _ => true
    | _ => false

/-- The `onError` emissions within a list of effects. -/
def onErrorEffects (effs : List Effect) : List Effect :=
  effs.filter fun e => match e with
    | .onErrorCall _ => true
    | _ => false

/-- Focusing then immediately blurring a field, with no edit between. -/
def focusThenBlur (p : Props) (s : State) (b : Boundary) : State :=
  (handleGenericInputBlur p (handleGenericInputFocus p s b).1 b).1

/-- Concrete uncontrolled fixture: default range
[2017-01-22, 2017-01-24], bounds [2000-02-01, 2020-02-01], distinct
custom invalid / out-of-range messages. -/
def propsUncontrolled : Props :=
  { value := none
    defaultValue := some (some 20170122, some 20170124)
    minDate := 20000201
    maxDate := 20200201
    invalidDateMessage := .litStr 1
    outOfRangeMessage := .litStr 2
    allowSingleDayRange := false
    openOnFocus := true }

/-- Concrete controlled fixture: owner-supplied value
[2017-01-22, 2017-01-24], same bounds and messages. -/
def propsControlled : Props :=
  { value := some (some 20170122, some 20170124)
    defaultValue := none
    minDate := 20000201
    maxDate := 20200201
    invalidDateMessage := .litStr 1
    outOfRangeMessage := .litStr 2
    allowSingleDayRange := false
    openOnFocus := true }

/-- Concrete uncontrolled fixture for the calendar-click scenario:
current range [2017-01-22, null]. -/
def propsClick : Props :=
  { value := none
    defaultValue := some (some 20170122, none)
    minDate := 20000201
    maxDate := 20200201
    invalidDateMessage := .litStr 1
    outOfRangeMessage := .litStr 2
    allowSingleDayRange := false
    openOnFocus := true }

/-- The state reached from `propsUncontrolled`'s initial state by typing
the out-of-range date 1000-02-01 into the end field and blurring it. -/
def c6State : State :=
  (run propsUncontrolled (mkInitialState propsUncontrolled)
    [.focusField .endBoundary,
     .changeText .endBoundary (.dateStr 10000201),
     .blurField .endBoundary]).1

/-- Encodes the claim's display expectation for one unfocused field, per
failure kind: an invalid committed value must display
`invalidDateMessage`, and a valid but out-of-range committed value must
display `outOfRangeMessage`; other committed values are unconstrained
by the claim. -/
def fieldShowsFailureMessage (p : Props) (committed : MomentValue)
    (shown : Str) : Bool :=
  match committed with
  | .invalidMoment => shown == p.invalidDateMessage
  | .validMoment d =>
    if dateIsInRange p (.validMoment d) then true
    else shown == p.outOfRangeMessage
  | _ => true

/-- A slot of the range handed to the picker is well-formed when it is
null or a date within [minDate, maxDate]. -/
def slotOk (p : Props) : Option Nat → Bool
  | none => true
  | some d => decide (p.minDate ≤ d) && decide (d ≤ p.maxDate)

/-- Encodes the claim about the derived picker range: both slots
well-formed, the pair never has end before start, and whenever both
stored values are valid in-range dates with the end before the start,
the end slot has been replaced by null. -/
def pickerRangeOk (p : Props) (s : State) : Bool :=
  let r := getCurrentDateRange p s
  slotOk p r.1 && slotOk p r.2 &&
  (match r.1, r.2 with
   | some a, some b => !(decide (b < a))
   | _, _ => true) &&
  (match s.startDateValue, s.endDateValue with
   | .validMoment a, .validMoment b =>
     if dateIsInRange p (.validMoment a) && dateIsInRange p (.validMoment b)
        && decide (b < a)
     then r.2 == none
     else true
   | _, _ => true)

theorem step_snd_eq_nil (p : Props) (s : State) (e : Event) :
    (step p s e).2 = [] := by
  cases e <;>
    simp [step, handleGenericInputChange, handleGenericInputFocus,
      handleGenericInputBlur, handleDateRangeChange, handleIconClick,
      handleClosePopover, apply_ite Prod.snd]

theorem run_snd_eq_nil (p : Props) (s : State) (es : List Event) :
    (run p s es).2 = [] := by
  induction es generalizing s with
  | nil => rfl
  | cons e es ih => simp [run, step_snd_eq_nil, ih]

/-- C1: in uncontrolled mode, clearing the start field of the existing
range [2017-01-22, 2017-01-24] and blurring does update the display
(empty start field, 2017-01-24 in the end field), but the commit's
`onChange([null, 2017-01-24])` never happens: the run emits no effects,
because the source's `onChange` invocations are `TODO` comments
(dateRangeInput.tsx lines 496 and 513).  This evaluates the code at the
claim's failing input. -/
theorem c1_clear_start_updates_display_but_emits_no_onChange :
    displayedStart propsUncontrolled
      (run propsUncontrolled (mkInitialState propsUncontrolled)
        [.focusField .startBoundary, .changeText .startBoundary .emptyStr,
         .blurField .startBoundary]).1 = .emptyStr ∧
    displayedEnd propsUncontrolled
      (run propsUncontrolled (mkInitialState propsUncontrolled)
        [.focusField .startBoundary, .changeText .startBoundary .emptyStr,
         .blurField .startBoundary]).1 = .dateStr 20170124 ∧
    (run propsUncontrolled (mkInitialState propsUncontrolled)
      [.focusField .startBoundary, .changeText .startBoundary .emptyStr,
       .blurField .startBoundary]).2 = [] := by
  decide

/-- C2: typing unparsable text into the start field and blurring leaves
the field displaying `invalidDateMessage`, but `onError` never fires:
the run emits no effects at all (the `onError` invocations at
dateRangeInput.tsx lines 491–494 are `TODO` comments).  This evaluates
the code at the claim's failing input. -/
theorem c2_invalid_text_blur_emits_no_onError :
    onErrorEffects
      (run propsUncontrolled (mkInitialState propsUncontrolled)
        [.focusField .startBoundary, .changeText .startBoundary (.litStr 9),
         .blurField .startBoundary]).2 = [] ∧
    (run propsUncontrolled (mkInitialState propsUncontrolled)
      [.focusField .startBoundary, .changeText .startBoundary (.litStr 9),
       .blurField .startBoundary]).2 = [] ∧
    displayedStart propsUncontrolled
      (run propsUncontrolled (mkInitialState propsUncontrolled)
        [.focusField .startBoundary, .changeText .startBoundary (.litStr 9),
         .blurField .startBoundary]).1 =
      propsUncontrolled.invalidDateMessage := by
  decide

/-- C3: over every event sequence from every state, `onChange` is never
emitted while the edited field's text is invalid or out of range —
indeed no `onChange` effect is ever emitted at all, since every
invocation site in the source is a `TODO` comment, so the safety
property holds a fortiori. -/
theorem c3_onChange_never_fires_with_invalid_text (p : Props) (s : State)
    (es : List Event) : onChangeEffects (run p s es).2 = [] := by
  rw [run_snd_eq_nil]; rfl

/-- C4: in controlled mode with owner value [2017-01-22, 2017-01-24] and
no updated `value` prop, clearing the start field and blurring displays
an empty start field instead of redisplaying the owner's formatted
value 2017-01-22: the empty-input branch of `handleGenericInputBlur`
overwrites local committed state even in controlled mode.  This
evaluates the code at the claim's failing input. -/
theorem c4_controlled_blur_does_not_redisplay_owner_value :
    displayedStart propsControlled
      (run propsControlled (mkInitialState propsControlled)
        [.focusField .startBoundary, .changeText .startBoundary .emptyStr,
         .blurField .startBoundary]).1 = .emptyStr ∧
    (mkInitialState propsControlled).startDateValue =
      .validMoment 20170122 ∧
    (Str.emptyStr ≠ Str.dateStr 20170122) := by
  decide

/-- C5: with uncontrolled range [2017-01-22, 2017-01-24], typing
2017-01-31 into the focused start field immediately makes the unfocused
end field display the hardcoded literal "Invalid end date" — the
component has no `overlappingDatesMessage` prop — and blurring the
start field emits no effects at all, so `onError([2017-01-31,
2017-01-24])` never fires (`onChange` does not fire either).  This
evaluates the code at the claim's failing input. -/
theorem c5_overlap_scenario_shows_hardcoded_text_and_no_onError :
    displayedEnd propsUncontrolled
      (run propsUncontrolled (mkInitialState propsUncontrolled)
        [.focusField .startBoundary,
         .changeText .startBoundary (.dateStr 20170131)]).1 =
      .invalidEndDateText ∧
    (run propsUncontrolled (mkInitialState propsUncontrolled)
      [.focusField .startBoundary,
       .changeText .startBoundary (.dateStr 20170131),
       .blurField .startBoundary]).2 = [] := by
  decide

/-- C6 counterexample: after typing the out-of-range date 1000-02-01
into the end field and blurring (start committed at 2017-01-22), the
end field is unfocused with a valid out-of-range committed value, yet
it displays the hardcoded "Invalid end date" literal, not the
configured `outOfRangeMessage` — the end field's display is not
evaluated independently of the start boundary. -/
theorem c6_out_of_range_end_shows_overlap_text_not_message :
    c6State.isEndDateInputFocused = false ∧
    c6State.endDateValue = .validMoment 10000201 ∧
    dateIsInRange propsUncontrolled (.validMoment 10000201) = false ∧
    displayedEnd propsUncontrolled c6State = .invalidEndDateText ∧
    (Str.invalidEndDateText ≠ propsUncontrolled.outOfRangeMessage) := by
  decide

/-- C6 amended: per field, evaluated independently of the other field's
focus state — whenever the start field is unfocused, an invalid
committed value displays `invalidDateMessage` and a valid out-of-range
committed value displays `outOfRangeMessage`; whenever the end field is
unfocused the same holds, except that the end field is not independent
of the start boundary's value: whenever the effective end value is a
valid date strictly before the effective start value, the end field
instead displays the hardcoded literal "Invalid end date". -/
theorem c6_unfocused_display_invariant_amended (p : Props) (s : State) :
    (s.isStartDateInputFocused = false →
      fieldShowsFailureMessage p s.startDateValue (displayedStart p s) =
        true) ∧
    (s.isEndDateInputFocused = false →
      if momentIsBefore (effectiveEnd s) (effectiveStart s) then
        displayedEnd p s = Str.invalidEndDateText
      else
        fieldShowsFailureMessage p s.endDateValue (displayedEnd p s) =
          true) := by
  constructor
  · intro hs
    cases hv : s.startDateValue <;>
      simp [fieldShowsFailureMessage, displayedStart, hs, hv,
        getDateStringForDisplay, isNull, momentIsValid, momentFormat,
        dateIsInRange] <;>
      tauto
  · intro he
    split
    · simp_all [displayedEnd]
    · cases hv : s.endDateValue <;>
        simp_all [fieldShowsFailureMessage, displayedEnd,
          getDateStringForDisplay, isNull, momentIsValid, momentFormat,
          dateIsInRange] <;>
        tauto

/-- C6 amended, witnessed on the concrete state `c6State` (end committed
out of range and before the start value, both fields unfocused), with
each per-field unfocusedness hypothesis discharged concretely. -/
theorem c6_unfocused_display_invariant_amended_witness :
    fieldShowsFailureMessage propsUncontrolled c6State.startDateValue
      (displayedStart propsUncontrolled c6State) = true ∧
    (if momentIsBefore (effectiveEnd c6State) (effectiveStart c6State) then
        displayedEnd propsUncontrolled c6State = Str.invalidEndDateText
      else
        fieldShowsFailureMessage propsUncontrolled c6State.endDateValue
          (displayedEnd propsUncontrolled c6State) = true) :=
  ⟨(c6_unfocused_display_invariant_amended propsUncontrolled c6State).1
      (by decide),
    (c6_unfocused_display_invariant_amended propsUncontrolled c6State).2
      (by decide)⟩

/-- C7 counterexample: in uncontrolled mode, a single keystroke writing
the valid in-range text for 2017-01-23 into the start field changes
that field's `committedValue` from 2017-01-22 to 2017-01-23 —
`handleGenericInputChange` writes `startDateValue`, not just the edit
text. -/
theorem c7_keystroke_mutates_committed_value :
    (mkInitialState propsUncontrolled).startDateValue =
      .validMoment 20170122 ∧
    ((handleGenericInputChange propsUncontrolled
        (mkInitialState propsUncontrolled) .startBoundary
        (.dateStr 20170123)).1).startDateValue = .validMoment 20170123 ∧
    ((handleGenericInputChange propsUncontrolled
        (mkInitialState propsUncontrolled) .startBoundary
        (.dateStr 20170123)).1).startDateValue ≠
      (mkInitialState propsUncontrolled).startDateValue := by
  decide

/-- C7 amended: a keystroke leaves the field's `committedValue`
unchanged only in controlled mode when the new text parses to a valid
in-range date; every other keystroke overwrites it — with null for
empty text and with the parsed moment (valid, invalid or out of range)
otherwise. -/
theorem c7_change_committed_characterization (p : Props) (s : State)
    (b : Boundary) (t : Str) :
    ((handleGenericInputChange p s b t).1).getValue b =
      (if t == .emptyStr then .nullVal
       else if momentIsValid (parseStr t) && dateIsInRange p (parseStr t)
       then (if p.value == none then parseStr t else s.getValue b)
       else parseStr t) := by
  cases b <;>
    simp only [handleGenericInputChange] <;>
    split_ifs <;>
    simp [State.getValue, State.setValue, State.setValueString]

set_option maxHeartbeats 2000000 in
/-- C8: focusing a blurred field and immediately blurring it again, with
no edit in between, leaves that field's committed value and its
displayed text unchanged, for every props configuration (controlled or
uncontrolled) and every state whose committed value is a moment (the
JS `null` literal only ever occupies a committed slot transiently while
the field is focused, so blurred states always satisfy the
hypothesis). -/
theorem c8_focus_then_blur_idempotent (p : Props) (s : State)
    (b : Boundary) (hfoc : s.getFocused b = false)
    (hnn : s.getValue b ≠ .nullVal) :
    (focusThenBlur p s b).getValue b = s.getValue b ∧
    displayedOf p (focusThenBlur p s b) b = displayedOf p s b := by
  cases b <;>
    [cases hv : s.startDateValue; cases hv : s.endDateValue] <;>
    cases hopen : p.openOnFocus <;>
    first
    | (simp only [State.getValue] at hnn; exact absurd hv hnn)
    | (simp only [focusThenBlur, handleGenericInputFocus,
        handleGenericInputBlur, State.getValue, State.setValue,
        State.setValueString, State.setFocused, State.getValueString,
        State.getFocused, displayedOf, displayedStart, displayedEnd,
        effectiveStart, effectiveEnd, hv, hfoc, hopen, isNull,
        momentFormat, parseStr, parseOpt, momentIsValid,
        Bool.false_eq_true, if_true, if_false, ite_true, ite_false,
        Option.getD_some] <;>
      split_ifs <;>
      simp_all [getDateStringForDisplay, dateIsInRange, isNull,
        momentIsValid, momentFormat, momentIsBefore, effectiveStart,
        effectiveEnd, State.getFocused, State.getValue])

/-- C8 witnessed at the uncontrolled fixture's initial state (start
field blurred, committed value 2017-01-22). -/
theorem c8_focus_then_blur_idempotent_witness :
    (focusThenBlur propsUncontrolled (mkInitialState propsUncontrolled)
        .startBoundary).getValue .startBoundary =
      (mkInitialState propsUncontrolled).getValue .startBoundary ∧
    displayedOf propsUncontrolled
        (focusThenBlur propsUncontrolled
          (mkInitialState propsUncontrolled) .startBoundary)
        .startBoundary =
      displayedOf propsUncontrolled (mkInitialState propsUncontrolled)
        .startBoundary :=
  c8_focus_then_blur_idempotent propsUncontrolled
    (mkInitialState propsUncontrolled) .startBoundary (by decide)
    (by decide)

/-- C9: with current range [2017-01-22, null], clicking day 24 sets the
fields to [2017-01-22, 2017-01-24] and then clicking day 22 (the
existing start) deselects the start boundary, leaving [null,
2017-01-24] — but neither click emits any effect: `handleDateRangeChange`
contains no `onChange` invocation, so the claimed `onChange` calls never
happen.  This evaluates the code at the claim's failing input. -/
theorem c9_calendar_clicks_update_fields_but_emit_no_onChange :
    displayedStart propsClick
      (clickDay propsClick (mkInitialState propsClick) 20170124).1 =
      .dateStr 20170122 ∧
    displayedEnd propsClick
      (clickDay propsClick (mkInitialState propsClick) 20170124).1 =
      .dateStr 20170124 ∧
    (clickDay propsClick (mkInitialState propsClick) 20170124).2 = [] ∧
    (clickDay propsClick
        (clickDay propsClick (mkInitialState propsClick) 20170124).1
        20170122).1.startDateValue = .nullMoment ∧
    (clickDay propsClick
        (clickDay propsClick (mkInitialState propsClick) 20170124).1
        20170122).1.endDateValue = .validMoment 20170124 ∧
    displayedStart propsClick
      (clickDay propsClick
        (clickDay propsClick (mkInitialState propsClick) 20170124).1
        20170122).1 = .emptyStr ∧
    displayedEnd propsClick
      (clickDay propsClick
        (clickDay propsClick (mkInitialState propsClick) 20170124).1
        20170122).1 = .dateStr 20170124 ∧
    (clickDay propsClick
      (clickDay propsClick (mkInitialState propsClick) 20170124).1
      20170122).2 = [] := by
  decide

/-- C10: the derived range `getCurrentDateRange` hands to the calendar
picker is always well-formed — each slot is null or a valid in-range
date (invalid and out-of-range committed values are replaced by null),
the pair never has its end before its start, and when both stored
values are valid in-range dates with the end before the start, the end
slot is nulled. -/
theorem c10_picker_range_well_formed (p : Props) (s : State) :
    pickerRangeOk p s = true := by
  unfold pickerRangeOk getCurrentDateRange slotOk jsLtOpt
    isDateValidAndInRange fromMomentToDate
  cases hs1 : s.startDateValue <;> cases hs2 : s.endDateValue <;>
    simp_all [momentIsValid, dateIsInRange] <;>
    split_ifs <;>
    simp_all

end DateRangeInputModel
